import Mathlib

/-!
Verification development for the dialang compiler (src/main.rs, src/emitters.rs).

The Rust sources are embedded shallowly:
* pest parse-tree pairs become the inductive `Token` (a rule tag, the matched
  text, and the inner pairs);
* the `Parse` trait implementations (`LinkN`, `LinkBody`, `String`, `Link`,
  `Def`) become functions `Token → PResult _`, where `PResult` distinguishes
  the `Err(Error { cause })` path from a Rust panic (`unreachable!`,
  `Option::unwrap`);
* the iterator-consuming `next_item` helper becomes explicit list threading;
* the two emitters become pure functions from `Doc` to the list of chunks
  written to the sink (each `writeln!` call contributes one chunk, tagged by
  the write site that produced it) together with an optional panic message.
  The output sink itself is modelled as infallible; I/O errors are outside
  the embedding.

Rust `String` operations that do not kernel-reduce in Lean (`trim`,
`to_lowercase`, `contains`) are modelled by executable list-based functions
`strTrim`, `strToLower`, `strContains`.
-/

namespace Dialang

/-- Grammar rule tags, as referenced from src/main.rs (`Rule::…`).  The
grammar file rules.pest is not part of the sources; the constructors below
are exactly the tags the Rust code matches on, plus `field` for the pairs
iterated inside `Def::parse`.  `def` is a Lean keyword, hence `def_`. -/
inductive Rule where
  | document
  | def_
  | field
  | link
  | name
  | link_n
  | ARROW_BODY
  | EOI
deriving DecidableEq

/-- Debug rendering of a rule tag, used by the `ensure_rule!` error message
(`format!("Expected {:?}, got {:?}", …)`). -/
def ruleRepr : Rule → String
  | Rule.document => "document"
  | Rule.def_ => "def"
  | Rule.field => "field"
  | Rule.link => "link"
  | Rule.name => "name"
  | Rule.link_n => "link_n"
  | Rule.ARROW_BODY => "ARROW_BODY"
  | Rule.EOI => "EOI"

/-- A pest `Pair`: its rule tag (`as_rule`), matched text (`as_str`) and
inner pairs (`into_inner`). -/
inductive Token where
  | mk (rule : Rule) (str : String) (inner : List Token)

/-- `Pair::as_rule`. -/
def Token.rule : Token → Rule
  | Token.mk r _ _ => r

/-- `Pair::as_str`. -/
def Token.str : Token → String
  | Token.mk _ s _ => s

/-- `Pair::into_inner`, as a list of pairs. -/
def Token.inner : Token → List Token
  | Token.mk _ _ i => i

/-- Outcome of running a fallible piece of the Rust program: `ok`, an
`Err(Error { cause })` value, or a panic (which in Rust unwinds past all the
`?` plumbing). -/
inductive PResult (α : Type) where
  | ok : α → PResult α
  | err : String → PResult α
  | panic : String → PResult α
deriving DecidableEq

/-- The message built by the `ensure_rule!` macro:
`format!("Expected {:?}, got {:?}", rule, tk.as_rule())`. -/
def mismatchMsg (expected got : Rule) : String :=
  "Expected " ++ ruleRepr expected ++ ", got " ++ ruleRepr got

/-- `Pairs::next_item`: take the next pair from the iterator (erroring with
cause `"Missing"` when exhausted) and parse it.  Returns the parsed value and
the rest of the iterator. -/
def next_item {α : Type} (p : Token → PResult α) :
    List Token → PResult (α × List Token)
  | [] => PResult.err "Missing"
  | t :: ts =>
    match p t with
    | PResult.ok a => PResult.ok (a, ts)
    | PResult.err e => PResult.err e
    | PResult.panic m => PResult.panic m

/-- Rust `str::trim`, modelled on the character list. -/
def strTrim (s : String) : String :=
  String.mk (((s.data.dropWhile Char.isWhitespace).reverse.dropWhile
    Char.isWhitespace).reverse)

/-- Rust `str::contains(char)`, modelled on the character list. -/
def strContains (s : String) (c : Char) : Bool :=
  s.data.contains c

/-- Rust `str::to_lowercase`, modelled on the character list (per-character
simple lowercasing; identical to Rust on ASCII, which is what the emitter
feeds it). -/
def strToLower (s : String) : String :=
  String.mk (s.data.map Char.toLower)

/-- The four cardinality markers (src/main.rs, `enum LinkN`). -/
inductive LinkN where
  | One
  | MaybeOne
  | Many
  | MaybeMany
deriving DecidableEq

/-- `impl Display for LinkN` (src/main.rs lines 65-78). -/
def LinkN.display : LinkN → String
  | LinkN.One => "1"
  | LinkN.MaybeOne => "(0,1)"
  | LinkN.Many => "(1,N)"
  | LinkN.MaybeMany => "(0,N)"

/-- `impl Parse for LinkN` (src/main.rs lines 80-92): checks the rule tag,
then matches the trimmed text; any other text hits `unreachable!("Unknown")`,
i.e. a panic. -/
def LinkN.parse (tk : Token) : PResult LinkN :=
  if tk.rule = Rule.link_n then
    if strTrim tk.str = "1" then PResult.ok LinkN.One
    else if strTrim tk.str = "1?" then PResult.ok LinkN.MaybeOne
    else if strTrim tk.str = "n" then PResult.ok LinkN.Many
    else if strTrim tk.str = "n?" then PResult.ok LinkN.MaybeMany
    else PResult.panic "internal error: entered unreachable code: Unknown"
  else PResult.err (mismatchMsg Rule.link_n tk.rule)

/-- `struct LinkBody` (src/main.rs lines 101-104). -/
structure LinkBody where
  is_pk : Bool
deriving DecidableEq

/-- `impl Parse for LinkBody` (src/main.rs lines 106-112): `is_pk` is set
exactly when the arrow-body text contains an equality character. -/
def LinkBody.parse (tk : Token) : PResult LinkBody :=
  if tk.rule = Rule.ARROW_BODY then
    PResult.ok { is_pk := strContains tk.str '=' }
  else PResult.err (mismatchMsg Rule.ARROW_BODY tk.rule)

/-- `impl Parse for String` (src/main.rs lines 94-99). -/
def parseName (tk : Token) : PResult String :=
  if tk.rule = Rule.name then PResult.ok tk.str
  else PResult.err (mismatchMsg Rule.name tk.rule)

/-- `struct Link` (src/main.rs lines 114-122).  `from` and `to` are Lean
keywords, hence `from_` and `to_`. -/
structure Link where
  from_ : String
  from_count : LinkN
  body : LinkBody
  to_count : LinkN
  to_ : String
  label : Option String
deriving DecidableEq

/-- `impl Parse for Link` (src/main.rs lines 124-142).  The five required
sub-parses propagate errors and panics; the optional trailing label uses
`.ok()`, which collapses the error case to `None` (`String` parsing never
panics, so the wildcard arm is faithful to Rust's `Result::ok`). -/
def Link.parse (tk : Token) : PResult Link :=
  if tk.rule = Rule.link then
    match next_item parseName tk.inner with
    | PResult.err e => PResult.err e
    | PResult.panic m => PResult.panic m
    | PResult.ok (from_, t1) =>
      match next_item LinkN.parse t1 with
      | PResult.err e => PResult.err e
      | PResult.panic m => PResult.panic m
      | PResult.ok (from_count, t2) =>
        match next_item LinkBody.parse t2 with
        | PResult.err e => PResult.err e
        | PResult.panic m => PResult.panic m
        | PResult.ok (body, t3) =>
          match next_item LinkN.parse t3 with
          | PResult.err e => PResult.err e
          | PResult.panic m => PResult.panic m
          | PResult.ok (to_count, t4) =>
            match next_item parseName t4 with
            | PResult.err e => PResult.err e
            | PResult.panic m => PResult.panic m
            | PResult.ok (to_, t5) =>
              PResult.ok
                { from_ := from_, from_count := from_count, body := body,
                  to_count := to_count, to_ := to_,
                  label :=
                    match next_item parseName t5 with
                    | PResult.ok (s, _) => some s
                    | _ => none }
  else PResult.err (mismatchMsg Rule.link tk.rule)

/-- `struct Field` (src/main.rs lines 144-148). -/
structure Field where
  field_type : String
  name : String
deriving DecidableEq

/-- `struct Def` (src/main.rs lines 150-154). -/
structure Def where
  name : String
  fields : List Field
deriving DecidableEq

/-- Body of the field loop in `Def::parse`: each field pair's inner pairs
yield the type and the name, both via `impl Parse for String`. -/
def parseField (ft : Token) : PResult Field :=
  match next_item parseName ft.inner with
  | PResult.err e => PResult.err e
  | PResult.panic m => PResult.panic m
  | PResult.ok (field_type, rest) =>
    match next_item parseName rest with
    | PResult.err e => PResult.err e
    | PResult.panic m => PResult.panic m
    | PResult.ok (name, _) => PResult.ok { field_type := field_type, name := name }

/-- The `for field in def` loop of `Def::parse`: the first failing field
aborts the whole definition. -/
def parseFields : List Token → PResult (List Field)
  | [] => PResult.ok []
  | t :: ts =>
    match parseField t with
    | PResult.err e => PResult.err e
    | PResult.panic m => PResult.panic m
    | PResult.ok f =>
      match parseFields ts with
      | PResult.err e => PResult.err e
      | PResult.panic m => PResult.panic m
      | PResult.ok fs => PResult.ok (f :: fs)

/-- `impl Parse for Def` (src/main.rs lines 158-174). -/
def Def.parse (tk : Token) : PResult Def :=
  if tk.rule = Rule.def_ then
    match next_item parseName tk.inner with
    | PResult.err e => PResult.err e
    | PResult.panic m => PResult.panic m
    | PResult.ok (name, rest) =>
      match parseFields rest with
      | PResult.err e => PResult.err e
      | PResult.panic m => PResult.panic m
      | PResult.ok fields => PResult.ok { name := name, fields := fields }
  else PResult.err (mismatchMsg Rule.def_ tk.rule)

/-- `struct Doc` (src/main.rs lines 204-207). -/
structure Doc where
  links : List Link
  defs : List Def
deriving DecidableEq

/-- The loop of `parse_doc` (src/main.rs lines 216-223) over the top-level
pairs of the document: links and defs are collected in source order, the
first parse error aborts the whole document, `EOI` stops the loop, and any
other tag hits `unreachable!`. -/
def buildDoc : List Token → PResult Doc
  | [] => PResult.ok { links := [], defs := [] }
  | t :: ts =>
    match t.rule with
    | Rule.link =>
      match Link.parse t with
      | PResult.err e => PResult.err e
      | PResult.panic m => PResult.panic m
      | PResult.ok l =>
        match buildDoc ts with
        | PResult.err e => PResult.err e
        | PResult.panic m => PResult.panic m
        | PResult.ok d => PResult.ok { links := l :: d.links, defs := d.defs }
    | Rule.def_ =>
      match Def.parse t with
      | PResult.err e => PResult.err e
      | PResult.panic m => PResult.panic m
      | PResult.ok df =>
        match buildDoc ts with
        | PResult.err e => PResult.err e
        | PResult.panic m => PResult.panic m
        | PResult.ok d => PResult.ok { links := d.links, defs := df :: d.defs }
    | Rule.EOI => PResult.ok { links := [], defs := [] }
    | r => PResult.panic ("internal error: entered unreachable code: Got token " ++ ruleRepr r)

/-!
## Emitters (src/emitters.rs)

Each `writeln!` call in the emitters is embedded as one output chunk — the
exact text the call writes (without the trailing newline, which `render`
adds) — tagged with the write site that produced it, so that the claims can
count nodes, edges and rows without parsing the output text back.
-/

/-- The write site of an output chunk. -/
inductive Tag where
  | fixed
  | nodeOpen
  | fieldRow
  | nodeClose
  | diamond
  | derEdge
  | tableOpen
  | rowStart
  | cell
  | rowEnd
  | tableClose
  | ormEdge
deriving DecidableEq

/-- One chunk of emitter output: the write site and the written text. -/
abbrev Item : Type := Tag × String

/-- Concatenating the chunks, each followed by the newline `writeln!`
appends, yields the byte-for-byte output stream. -/
def render (items : List Item) : String :=
  String.join (items.map (fun it => it.2 ++ "\n"))

/-- The diamond-node identifier of `emit_der`:
`format!("{from}_{to}_{label}")` with the label defaulted to `""`. -/
def diamondId (l : Link) : String :=
  l.from_ ++ "_" ++ l.to_ ++ "_" ++ l.label.getD ""

/-- The per-entity record node opening of `emit_der` (lines 10-15): one
`writeln!` containing the node header and the table opening. -/
def derNodeOpenItem (name : String) : Item :=
  (Tag.nodeOpen,
    name ++ " [label=<\n            <TABLE border=\"0\" cellborder=\"1\" cellspacing=\"0\">\n            <TR><TD colspan=\"2\" bgcolor=\"gray\">" ++ name ++ "</TD></TR>")

/-- The per-field row of `emit_der` (line 17). -/
def derFieldItem (fl : Field) : Item :=
  (Tag.fieldRow, "<TR><TD>" ++ fl.field_type ++ "</TD><TD>" ++ fl.name ++ "</TD></TR>")

/-- Everything `emit_der` writes for one entity definition (lines 8-20). -/
def derDefBlock (d : Def) : List Item :=
  derNodeOpenItem d.name ::
    (d.fields.map derFieldItem ++ [(Tag.nodeClose, "</TABLE> >];")])

/-- Everything `emit_der` writes for one relationship (lines 22-36): the
diamond node and the two connecting edges, annotated with the `Display` forms of the
two cardinalities. -/
def derLinkItems (l : Link) : List Item :=
  [(Tag.diamond, "\t" ++ diamondId l ++ " [label=<" ++ l.label.getD "" ++ ">];"),
   (Tag.derEdge, "\t" ++ l.from_ ++ " -- " ++ diamondId l ++ " [taillabel=<" ++ LinkN.display l.from_count ++ ">];"),
   (Tag.derEdge, "\t" ++ diamondId l ++ " -- " ++ l.to_ ++ "   [headlabel=<" ++ LinkN.display l.to_count ++ ">];")]

/-- `emit_der` (src/emitters.rs lines 5-39).  The function contains no
panic site and the sink is modelled as infallible, so the second component
(the panic message) is always `none`. -/
def emit_der (doc : Doc) : List Item × Option String :=
  ((Tag.fixed, "graph \x7b") ::
    (Tag.fixed, "node [shape=plaintext];") ::
      (doc.defs.flatMap derDefBlock ++
        (Tag.fixed, "node [shape=diamond, fontsize=11];") ::
          (doc.links.flatMap derLinkItems ++ [(Tag.fixed, "\x7d")])),
   none)

/-- `table_fields` (src/emitters.rs lines 41-48): one `<TR>` line, one line
per cell, one `</TR>` line. -/
def table_fields (cells : List String) : List Item :=
  (Tag.rowStart, "<TR>") ::
    (cells.map (fun c => (Tag.cell, "<TD align=\"LEFT\">" ++ c ++ "</TD>")) ++
      [(Tag.rowEnd, "</TR>")])

/-- Does every relationship's `from` name match some entity definition?
This is exactly the condition under which the grouping loop of `emit_orm`
(lines 54-58) avoids the `.unwrap()` panic: `def_links` is keyed by the
definition names, and each link is pushed onto the entry for its `from`. -/
def closedFroms (doc : Doc) : Bool :=
  doc.links.all (fun l => doc.defs.any (fun d => d.name == l.from_))

/-- The group `def_links[name]` that the `HashMap` built in lines 54-58
associates to an entity name: the links whose `from` equals that name, in
source order (pushes happen in link iteration order). -/
def ormOutgoing (doc : Doc) (d : Def) : List Link :=
  doc.links.filter (fun l => l.from_ == d.name)

/-- The two cells of an ORM field row (lines 69-81): `"pk"` exactly for the
field name `id`, and the `+`-prefixed field name. -/
def ormFieldCells (fl : Field) : List String :=
  [if fl.name == "id" then "pk" else "", "+" ++ fl.name]

/-- The two cells of an ORM foreign-key row (lines 82-86): `"fk_pk"` when
the relationship's `is_pk` flag is set, else `"fk"`, and the synthesized
column `+<to lowercased>_id`. -/
def fkCells (l : Link) : List String :=
  [if l.body.is_pk then "fk_pk" else "fk", "+" ++ strToLower l.to_ ++ "_id"]

/-- The per-entity table node opening of `emit_orm` (lines 62-67). -/
def tableOpenItem (name : String) : Item :=
  (Tag.tableOpen,
    name ++ " [label=<\n            <TABLE border=\"1\" ALIGN=\"LEFT\" cellborder=\"0\" cellspacing=\"0\">\n            <TR><TD colspan=\"2\" border=\"1\">" ++ name ++ "</TD></TR>")

/-- Everything `emit_orm` writes for one entity definition (lines 60-89):
the table opening, one `table_fields` row per declared field in source
order, then one `table_fields` row per outgoing relationship in source
order, then the table closing. -/
def ormDefBlock (doc : Doc) (d : Def) : List Item :=
  tableOpenItem d.name ::
    (d.fields.flatMap (fun fl => table_fields (ormFieldCells fl)) ++
      (ormOutgoing doc d).flatMap (fun l => table_fields (fkCells l)) ++
      [(Tag.tableClose, "</TABLE> >];")])

/-- The per-relationship edge of `emit_orm` (lines 90-99): a direct
`from -> to` edge labelled with the `Display` form of `to_count`. -/
def ormEdgeItem (l : Link) : Item :=
  (Tag.ormEdge,
    "\t" ++ l.from_ ++ " -> " ++ l.to_ ++ " [headlabel=<" ++ LinkN.display l.to_count ++ ">\n            labelangle=45 labeldistance=2.1];")

/-- The three header lines of `emit_orm` (lines 51-53). -/
def ormHeader : List Item :=
  [(Tag.fixed, "digraph \x7b"),
   (Tag.fixed, "graph [layout=dot];"),
   (Tag.fixed, "node [shape=plaintext];")]

/-- `emit_orm` (src/emitters.rs lines 50-102).  The grouping loop panics at
the first link whose `from` matches no definition name
(`def_links.get_mut(&*link.from).unwrap()`); in that case the header lines
have been written and the process panics, so the model returns the panic
message alongside the header.  Otherwise every lookup succeeds (the map is
keyed by exactly the definition names) and the full output is produced. -/
def emit_orm (doc : Doc) : List Item × Option String :=
  if closedFroms doc then
    (ormHeader ++ doc.defs.flatMap (ormDefBlock doc) ++
      doc.links.map ormEdgeItem ++ [(Tag.fixed, "\x7d")],
     none)
  else
    (ormHeader, some "called Option::unwrap() on a None value")

/-- The emitter selected by `Mode` (src/main.rs lines 178-184, 229-232). -/
inductive Mode where
  | DER
  | ORM
deriving DecidableEq

/-- The core pipeline of `app` (src/main.rs lines 227-260), from the
top-level parse-tree pairs of a document: build the `Doc`, then run the
selected emitter against the sink; a build error or a panic produces no
rendered output. -/
def runPipeline (m : Mode) (topTokens : List Token) : PResult String :=
  match buildDoc topTokens with
  | PResult.err e => PResult.err e
  | PResult.panic s => PResult.panic s
  | PResult.ok doc =>
    match (match m with | Mode.DER => emit_der doc | Mode.ORM => emit_orm doc) with
    | (_, some s) => PResult.panic s
    | (items, none) => PResult.ok (render items)

/-- Number of output chunks produced by a given write site. -/
def countTag (t : Tag) (items : List Item) : Nat :=
  items.countP (fun it => it.1 == t)

/-- The `(from, to, label)` triple of a relationship, with the label
defaulted to the empty string as in `emit_der`. -/
def linkTriple (l : Link) : String × String × String :=
  (l.from_, l.to_, l.label.getD "")

/-- The `id` field of the spec §8 example. -/
def idField : Field := { field_type := "int", name := "id" }

/-- The `User` entity of the spec §8 example. -/
def userDef : Def :=
  { name := "User",
    fields := [idField, { field_type := "string", name := "name" }] }

/-- The relationship `User 1 -> n Order "places"` of the spec §8 example. -/
def sampleLink : Link :=
  { from_ := "User", from_count := LinkN.One, body := { is_pk := false },
    to_count := LinkN.Many, to_ := "Order", label := some "places" }

/-- The worked example of spec §8: `User { int id; string name; }`,
`Order { int id; }` and the relationship `User 1 -> n Order "places"`. -/
def sampleDoc : Doc :=
  { defs := [userDef, { name := "Order", fields := [idField] }],
    links := [sampleLink] }

/-- A document whose single relationship names a `from` entity that has no
definition at all. -/
def c1BadDoc : Doc :=
  { links :=
      [{ from_ := "Customer", from_count := LinkN.One,
         body := { is_pk := false }, to_count := LinkN.Many,
         to_ := "Invoice", label := none }],
    defs := [] }

/-- A document with one definition and one relationship whose `from` name
matches no definition. -/
def c10BadDoc : Doc :=
  { links :=
      [{ from_ := "Ghost", from_count := LinkN.One,
         body := { is_pk := false }, to_count := LinkN.One,
         to_ := "User", label := none }],
    defs := [{ name := "User", fields := [] }] }

/-- A document whose single relationship has a well-defined `from` but a
dangling `to` name. -/
def danglingToDoc : Doc :=
  { defs := [{ name := "Account", fields := [] }],
    links :=
      [{ from_ := "Account", from_count := LinkN.One,
         body := { is_pk := true }, to_count := LinkN.MaybeMany,
         to_ := "Nowhere", label := none }] }

/-- A parse-tree pair for a relationship statement that is missing its
destination name: only the four pairs up to `to_count` are present. -/
def missingToLinkToken (ls fs cs bs cs2 : String) : Token :=
  Token.mk Rule.link ls
    [Token.mk Rule.name fs [], Token.mk Rule.link_n cs [],
     Token.mk Rule.ARROW_BODY bs [], Token.mk Rule.link_n cs2 []]

/-- A parse-tree pair for a complete relationship statement, with `extra`
trailing pairs (the optional label position). -/
def fullLinkToken (ls fs cs bs cs2 ts : String) (extra : List Token) : Token :=
  Token.mk Rule.link ls
    ([Token.mk Rule.name fs [], Token.mk Rule.link_n cs [],
      Token.mk Rule.ARROW_BODY bs [], Token.mk Rule.link_n cs2 [],
      Token.mk Rule.name ts []] ++ extra)

/-!
## Counting lemmas
-/

theorem countTag_append (t : Tag) (l1 l2 : List Item) :
    countTag t (l1 ++ l2) = countTag t l1 + countTag t l2 :=
  List.countP_append _ _ _

theorem countTag_cons (t : Tag) (i : Item) (l : List Item) :
    countTag t (i :: l) = countTag t l + if (i.1 == t) then 1 else 0 :=
  List.countP_cons _ _ _

theorem countTag_map_zero {α : Type} (f : α → Item) (t : Tag) (l : List α)
    (h : ∀ x, ((f x).1 == t) = false) : countTag t (l.map f) = 0 := by
  induction l with
  | nil => rfl
  | cons a l ih =>
    rw [List.map_cons, countTag_cons, ih, h a]
    rfl

theorem countTag_map_all {α : Type} (f : α → Item) (t : Tag) (l : List α)
    (h : ∀ x, ((f x).1 == t) = true) : countTag t (l.map f) = l.length := by
  induction l with
  | nil => rfl
  | cons a l ih =>
    rw [List.map_cons, countTag_cons, ih, h a, List.length_cons]
    rfl

theorem countTag_flatMap {α : Type} (f : α → List Item) (t : Tag) (c : Nat)
    (l : List α) (h : ∀ x, countTag t (f x) = c) :
    countTag t (l.flatMap f) = l.length * c := by
  induction l with
  | nil => simp [countTag]
  | cons a l ih =>
    rw [List.flatMap_cons, countTag_append, h a, ih, List.length_cons]
    ring

theorem countTag_table_fields_rowStart (cells : List String) :
    countTag Tag.rowStart (table_fields cells) = 1 := by
  have h0 : countTag Tag.rowStart
      (cells.map (fun c => ((Tag.cell, "<TD align=\"LEFT\">" ++ c ++ "</TD>") : Item))) = 0 :=
    countTag_map_zero _ _ _ (fun x => rfl)
  rw [table_fields, countTag_cons, countTag_append, h0]
  rfl

theorem countTag_table_fields_zero (t : Tag) (cells : List String)
    (h1 : (Tag.rowStart == t) = false) (h2 : (Tag.cell == t) = false)
    (h3 : (Tag.rowEnd == t) = false) :
    countTag t (table_fields cells) = 0 := by
  have h0 : countTag t
      (cells.map (fun c => ((Tag.cell, "<TD align=\"LEFT\">" ++ c ++ "</TD>") : Item))) = 0 :=
    countTag_map_zero _ _ _ (fun x => h2)
  rw [table_fields, countTag_cons, countTag_append, h0, h1]
  simp [countTag, List.countP_cons, h3]

theorem emit_der_fst (doc : Doc) :
    (emit_der doc).1 =
      (Tag.fixed, "graph \x7b") ::
        (Tag.fixed, "node [shape=plaintext];") ::
          (doc.defs.flatMap derDefBlock ++
            (Tag.fixed, "node [shape=diamond, fontsize=11];") ::
              (doc.links.flatMap derLinkItems ++ [(Tag.fixed, "\x7d")])) := rfl

theorem countTag_derDefBlock_nodeOpen (d : Def) :
    countTag Tag.nodeOpen (derDefBlock d) = 1 := by
  have h0 : countTag Tag.nodeOpen (d.fields.map derFieldItem) = 0 :=
    countTag_map_zero _ _ _ (fun x => rfl)
  rw [derDefBlock, countTag_cons, countTag_append, h0]
  rfl

theorem countTag_derDefBlock_zero (t : Tag) (d : Def)
    (h1 : (Tag.nodeOpen == t) = false) (h2 : (Tag.fieldRow == t) = false)
    (h3 : (Tag.nodeClose == t) = false) :
    countTag t (derDefBlock d) = 0 := by
  have h0 : countTag t (d.fields.map derFieldItem) = 0 :=
    countTag_map_zero _ _ _ (fun x => h2)
  rw [derDefBlock, countTag_cons, countTag_append, h0]
  dsimp only [derNodeOpenItem]
  rw [h1]
  simp [countTag, List.countP_cons, h3]

theorem countTag_derLinkItems_diamond (l : Link) :
    countTag Tag.diamond (derLinkItems l) = 1 := rfl

theorem countTag_derLinkItems_derEdge (l : Link) :
    countTag Tag.derEdge (derLinkItems l) = 2 := rfl

theorem countTag_derLinkItems_nodeOpen (l : Link) :
    countTag Tag.nodeOpen (derLinkItems l) = 0 := rfl

theorem emit_der_count_nodeOpen (doc : Doc) :
    countTag Tag.nodeOpen (emit_der doc).1 = doc.defs.length := by
  rw [emit_der_fst, countTag_cons, countTag_cons, countTag_append,
    countTag_cons, countTag_append,
    countTag_flatMap _ _ 1 _ countTag_derDefBlock_nodeOpen,
    countTag_flatMap _ _ 0 _ countTag_derLinkItems_nodeOpen]
  simp [countTag, List.countP_cons]

theorem emit_der_count_diamond (doc : Doc) :
    countTag Tag.diamond (emit_der doc).1 = doc.links.length := by
  rw [emit_der_fst, countTag_cons, countTag_cons, countTag_append,
    countTag_cons, countTag_append,
    countTag_flatMap _ _ 0 _ (fun d => countTag_derDefBlock_zero Tag.diamond d rfl rfl rfl),
    countTag_flatMap _ _ 1 _ countTag_derLinkItems_diamond]
  simp [countTag, List.countP_cons]

theorem emit_der_count_derEdge (doc : Doc) :
    countTag Tag.derEdge (emit_der doc).1 = 2 * doc.links.length := by
  rw [emit_der_fst, countTag_cons, countTag_cons, countTag_append,
    countTag_cons, countTag_append,
    countTag_flatMap _ _ 0 _ (fun d => countTag_derDefBlock_zero Tag.derEdge d rfl rfl rfl),
    countTag_flatMap _ _ 2 _ countTag_derLinkItems_derEdge]
  simp [countTag, List.countP_cons]
  ring

theorem emit_orm_fst_closed (doc : Doc) (h : closedFroms doc = true) :
    (emit_orm doc).1 =
      ormHeader ++ doc.defs.flatMap (ormDefBlock doc) ++
        doc.links.map ormEdgeItem ++ [(Tag.fixed, "\x7d")] := by
  simp [emit_orm, h]

theorem emit_orm_snd_none_iff (doc : Doc) :
    (emit_orm doc).2 = none ↔ closedFroms doc = true := by
  by_cases h : closedFroms doc <;> simp [emit_orm, h]

theorem countTag_ormDefBlock_tableOpen (doc : Doc) (d : Def) :
    countTag Tag.tableOpen (ormDefBlock doc d) = 1 := by
  rw [ormDefBlock, countTag_cons, countTag_append, countTag_append,
    countTag_flatMap _ _ 0 _
      (fun fl => countTag_table_fields_zero Tag.tableOpen (ormFieldCells fl) rfl rfl rfl),
    countTag_flatMap _ _ 0 _
      (fun l => countTag_table_fields_zero Tag.tableOpen (fkCells l) rfl rfl rfl)]
  rfl

theorem countTag_ormDefBlock_rowStart (doc : Doc) (d : Def) :
    countTag Tag.rowStart (ormDefBlock doc d) =
      d.fields.length + (ormOutgoing doc d).length := by
  rw [ormDefBlock, countTag_cons, countTag_append, countTag_append,
    countTag_flatMap _ _ 1 _ (fun fl => countTag_table_fields_rowStart (ormFieldCells fl)),
    countTag_flatMap _ _ 1 _ (fun l => countTag_table_fields_rowStart (fkCells l))]
  simp [countTag, List.countP_cons, tableOpenItem]

theorem countTag_ormDefBlock_ormEdge (doc : Doc) (d : Def) :
    countTag Tag.ormEdge (ormDefBlock doc d) = 0 := by
  rw [ormDefBlock, countTag_cons, countTag_append, countTag_append,
    countTag_flatMap _ _ 0 _
      (fun fl => countTag_table_fields_zero Tag.ormEdge (ormFieldCells fl) rfl rfl rfl),
    countTag_flatMap _ _ 0 _
      (fun l => countTag_table_fields_zero Tag.ormEdge (fkCells l) rfl rfl rfl)]
  rfl

theorem emit_orm_count_tableOpen (doc : Doc) (h : closedFroms doc = true) :
    countTag Tag.tableOpen (emit_orm doc).1 = doc.defs.length := by
  have hmap : countTag Tag.tableOpen (doc.links.map ormEdgeItem) = 0 :=
    countTag_map_zero _ _ _ (fun l => rfl)
  rw [emit_orm_fst_closed doc h, countTag_append, countTag_append, countTag_append,
    countTag_flatMap _ _ 1 _ (countTag_ormDefBlock_tableOpen doc), hmap]
  simp [countTag, List.countP_cons, ormHeader]

theorem emit_orm_count_ormEdge (doc : Doc) (h : closedFroms doc = true) :
    countTag Tag.ormEdge (emit_orm doc).1 = doc.links.length := by
  have hmap : countTag Tag.ormEdge (doc.links.map ormEdgeItem) = doc.links.length :=
    countTag_map_all _ _ _ (fun l => rfl)
  rw [emit_orm_fst_closed doc h, countTag_append, countTag_append, countTag_append,
    countTag_flatMap _ _ 0 _ (countTag_ormDefBlock_ormEdge doc), hmap]
  simp [countTag, List.countP_cons, ormHeader]

theorem linkTriple_eq_diamondId (l1 l2 : Link)
    (he : linkTriple l1 = linkTriple l2) : diamondId l1 = diamondId l2 := by
  simp only [linkTriple, Prod.mk.injEq] at he
  simp [diamondId, he.1, he.2.1, he.2.2]

theorem dedup_diamondId_linkTriple (ls : List Link)
    (h : ∀ l1 ∈ ls, ∀ l2 ∈ ls, diamondId l1 = diamondId l2 →
      linkTriple l1 = linkTriple l2) :
    ((ls.map diamondId).dedup).length = ((ls.map linkTriple).dedup).length := by
  induction ls with
  | nil => rfl
  | cons a tl ih =>
    have htl : ∀ l1 ∈ tl, ∀ l2 ∈ tl, diamondId l1 = diamondId l2 →
        linkTriple l1 = linkTriple l2 :=
      fun l1 h1 l2 h2 => h l1 (List.mem_cons_of_mem _ h1) l2 (List.mem_cons_of_mem _ h2)
    have hmem : diamondId a ∈ tl.map diamondId ↔ linkTriple a ∈ tl.map linkTriple := by
      constructor
      · intro hm
        obtain ⟨b, hb, he⟩ := List.mem_map.mp hm
        exact List.mem_map.mpr
          ⟨b, hb, h b (List.mem_cons_of_mem _ hb) a (List.mem_cons_self _ _) he⟩
      · intro hm
        obtain ⟨b, hb, he⟩ := List.mem_map.mp hm
        exact List.mem_map.mpr ⟨b, hb, linkTriple_eq_diamondId b a he⟩
    by_cases hc : diamondId a ∈ tl.map diamondId
    · rw [List.map_cons, List.map_cons, List.dedup_cons_of_mem hc,
        List.dedup_cons_of_mem (hmem.mp hc)]
      exact ih htl
    · rw [List.map_cons, List.map_cons, List.dedup_cons_of_not_mem hc,
        List.dedup_cons_of_not_mem (fun hx => hc (hmem.mpr hx))]
      simp [ih htl]

/-!
## Claims
-/

/-- C1, counterexample: the claim says an emit call cannot fail or panic due
to document content, but `emit_orm` panics on the grouping-index `.unwrap()`
for a document whose single relationship's `from` name (`"Customer"`)
matches no entity definition. -/
theorem c1_counterexample :
    (emit_orm c1BadDoc).2 = some "called Option::unwrap() on a None value" := rfl

/-- C1 (amended): `emit_der` performs no validation and can never fail or
panic due to document content; `emit_orm` avoids its panic exactly when
every relationship's `from` name matches some entity definition, in which
case a `to` name matching no definition only degrades into a dangling edge
(one edge chunk is still emitted per relationship); sink I/O errors are the
only failures outside the scope of the document-content model. -/
theorem c1_rendering_failure_modes (doc : Doc) :
    (emit_der doc).2 = none ∧
    ((emit_orm doc).2 = none ↔ closedFroms doc = true) ∧
    (closedFroms doc = true →
      countTag Tag.ormEdge (emit_orm doc).1 = doc.links.length) :=
  ⟨rfl, emit_orm_snd_none_iff doc, fun h => emit_orm_count_ormEdge doc h⟩

/-- C1 witness: the amended claim evaluated on a document with a dangling
`to` name. -/
theorem c1_witness :
    (emit_der danglingToDoc).2 = none ∧
    countTag Tag.ormEdge (emit_orm danglingToDoc).1 = danglingToDoc.links.length :=
  ⟨(c1_rendering_failure_modes danglingToDoc).1,
   (c1_rendering_failure_modes danglingToDoc).2.2 (by decide)⟩

/-- C2: for every relationship of a document whose `from` names all resolve
and whose definition names are distinct, there is exactly one definition
carrying the relationship's foreign-key row; that row is rendered by one
`table_fields` call (one `<TR>`), and its cells are `"fk_pk"` precisely when
the arrow-body text the relationship's `body` was parsed from contains an
equality character (else `"fk"`), next to `+<to lowercased>_id`. -/
theorem c2_orm_fk_rows (doc : Doc)
    (hclosed : closedFroms doc = true)
    (hnodup : (doc.defs.map Def.name).Nodup)
    (l : Link) (hl : l ∈ doc.links) (s : String)
    (hs : LinkBody.parse (Token.mk Rule.ARROW_BODY s []) = PResult.ok l.body) :
    ∃ d, d ∈ doc.defs ∧ d.name = l.from_ ∧
      (∀ d2 ∈ doc.defs, d2.name = l.from_ → d2 = d) ∧
      l ∈ ormOutgoing doc d ∧
      (emit_orm doc).1 =
        ormHeader ++ doc.defs.flatMap (ormDefBlock doc) ++
          doc.links.map ormEdgeItem ++ [(Tag.fixed, "\x7d")] ∧
      ormDefBlock doc d =
        tableOpenItem d.name ::
          (d.fields.flatMap (fun fl => table_fields (ormFieldCells fl)) ++
            (ormOutgoing doc d).flatMap (fun l2 => table_fields (fkCells l2)) ++
            [(Tag.tableClose, "</TABLE> >];")]) ∧
      countTag Tag.rowStart (table_fields (fkCells l)) = 1 ∧
      fkCells l = [if strContains s '=' then "fk_pk" else "fk",
                   "+" ++ strToLower l.to_ ++ "_id"] := by
  have hall : ∀ x ∈ doc.links, (doc.defs.any (fun d => d.name == x.from_)) = true := by
    simpa [closedFroms, List.all_eq_true] using hclosed
  obtain ⟨d, hd, hdbeq⟩ := List.any_eq_true.mp (hall l hl)
  have hdname : d.name = l.from_ := by simpa using hdbeq
  have hinj := List.inj_on_of_nodup_map hnodup
  refine ⟨d, hd, hdname, fun d2 hd2 he => hinj hd2 hd (he.trans hdname.symm),
    List.mem_filter.mpr ⟨hl, by simp [hdname]⟩,
    emit_orm_fst_closed doc hclosed, rfl, countTag_table_fields_rowStart _, ?_⟩
  simp only [LinkBody.parse, Token.rule, Token.str, ite_true] at hs
  injection hs with hbody
  simp only [fkCells]
  rw [← hbody]

/-- C2 witness: the claim evaluated on the spec §8 example document, whose
relationship `User 1 -> n Order` was parsed from the arrow body `"->"`. -/
theorem c2_witness :
    ∃ d, d ∈ sampleDoc.defs ∧ d.name = sampleLink.from_ ∧
      (∀ d2 ∈ sampleDoc.defs, d2.name = sampleLink.from_ → d2 = d) ∧
      sampleLink ∈ ormOutgoing sampleDoc d ∧
      (emit_orm sampleDoc).1 =
        ormHeader ++ sampleDoc.defs.flatMap (ormDefBlock sampleDoc) ++
          sampleDoc.links.map ormEdgeItem ++ [(Tag.fixed, "\x7d")] ∧
      ormDefBlock sampleDoc d =
        tableOpenItem d.name ::
          (d.fields.flatMap (fun fl => table_fields (ormFieldCells fl)) ++
            (ormOutgoing sampleDoc d).flatMap (fun l2 => table_fields (fkCells l2)) ++
            [(Tag.tableClose, "</TABLE> >];")]) ∧
      countTag Tag.rowStart (table_fields (fkCells sampleLink)) = 1 ∧
      fkCells sampleLink = [if strContains "->" '=' then "fk_pk" else "fk",
                            "+" ++ strToLower sampleLink.to_ ++ "_id"] :=
  c2_orm_fk_rows sampleDoc (by decide) (by decide) sampleLink (by decide) "->" (by decide)

/-- C3: the four cardinality tokens parse to the four distinct `LinkN`
values, whose display forms are `"1"`, `"(0,1)"`, `"(1,N)"`, `"(0,N)"`; the
display map is injective, and both emitters annotate their edges with
exactly these display forms. -/
theorem c3_cardinality_roundtrip :
    (LinkN.parse (Token.mk Rule.link_n "1" []) = PResult.ok LinkN.One ∧
     LinkN.parse (Token.mk Rule.link_n "1?" []) = PResult.ok LinkN.MaybeOne ∧
     LinkN.parse (Token.mk Rule.link_n "n" []) = PResult.ok LinkN.Many ∧
     LinkN.parse (Token.mk Rule.link_n "n?" []) = PResult.ok LinkN.MaybeMany) ∧
    (LinkN.display LinkN.One = "1" ∧ LinkN.display LinkN.MaybeOne = "(0,1)" ∧
     LinkN.display LinkN.Many = "(1,N)" ∧ LinkN.display LinkN.MaybeMany = "(0,N)") ∧
    (∀ a b : LinkN, LinkN.display a = LinkN.display b → a = b) ∧
    (∀ l : Link, derLinkItems l =
      [(Tag.diamond, "\t" ++ diamondId l ++ " [label=<" ++ l.label.getD "" ++ ">];"),
       (Tag.derEdge, "\t" ++ l.from_ ++ " -- " ++ diamondId l ++ " [taillabel=<" ++
         LinkN.display l.from_count ++ ">];"),
       (Tag.derEdge, "\t" ++ diamondId l ++ " -- " ++ l.to_ ++ "   [headlabel=<" ++
         LinkN.display l.to_count ++ ">];")]) ∧
    (∀ l : Link, ormEdgeItem l =
      (Tag.ormEdge, "\t" ++ l.from_ ++ " -> " ++ l.to_ ++ " [headlabel=<" ++
        LinkN.display l.to_count ++ ">\n            labelangle=45 labeldistance=2.1];")) := by
  refine ⟨⟨by decide, by decide, by decide, by decide⟩, ⟨rfl, rfl, rfl, rfl⟩,
    ?_, fun l => rfl, fun l => rfl⟩
  intro a b h
  cases a <;> cases b <;> first
    | rfl
    | exact absurd h (by decide)

/-- C3 witness: the parse branch, the injectivity branch and the emitter
branch of the claim at concrete inputs. -/
theorem c3_witness :
    LinkN.parse (Token.mk Rule.link_n "n?" []) = PResult.ok LinkN.MaybeMany ∧
    LinkN.MaybeMany = LinkN.MaybeMany ∧
    ormEdgeItem sampleLink =
      (Tag.ormEdge, "\t" ++ sampleLink.from_ ++ " -> " ++ sampleLink.to_ ++
        " [headlabel=<" ++ LinkN.display sampleLink.to_count ++
        ">\n            labelangle=45 labeldistance=2.1];") :=
  ⟨c3_cardinality_roundtrip.1.2.2.2,
   c3_cardinality_roundtrip.2.2.1 LinkN.MaybeMany LinkN.MaybeMany rfl,
   c3_cardinality_roundtrip.2.2.2.2 sampleLink⟩

/-- C4: for every document, the DER output has exactly one record-node
chunk per entity definition, exactly one diamond chunk per relationship and
exactly two edge chunks per relationship; and when the diamond identifier
(the `from_to_label` concatenation) separates the document's relationships
no further than their `(from, to, label)` triples do, the number of
distinct diamond node identifiers equals the number of distinct triples. -/
theorem c4_der_counts (doc : Doc)
    (hinj : ∀ l1 ∈ doc.links, ∀ l2 ∈ doc.links,
      diamondId l1 = diamondId l2 → linkTriple l1 = linkTriple l2) :
    countTag Tag.nodeOpen (emit_der doc).1 = doc.defs.length ∧
    countTag Tag.diamond (emit_der doc).1 = doc.links.length ∧
    countTag Tag.derEdge (emit_der doc).1 = 2 * doc.links.length ∧
    ((doc.links.map diamondId).dedup).length =
      ((doc.links.map linkTriple).dedup).length :=
  ⟨emit_der_count_nodeOpen doc, emit_der_count_diamond doc,
   emit_der_count_derEdge doc, dedup_diamondId_linkTriple doc.links hinj⟩

/-- C4 witness: the counts on the spec §8 example document. -/
theorem c4_witness :
    countTag Tag.nodeOpen (emit_der sampleDoc).1 = sampleDoc.defs.length ∧
    countTag Tag.diamond (emit_der sampleDoc).1 = sampleDoc.links.length ∧
    countTag Tag.derEdge (emit_der sampleDoc).1 = 2 * sampleDoc.links.length ∧
    ((sampleDoc.links.map diamondId).dedup).length =
      ((sampleDoc.links.map linkTriple).dedup).length :=
  c4_der_counts sampleDoc (by decide)

/-- C5: for every document on which `emit_orm` produces output (all `from`
names resolve), the ORM output has exactly one table chunk per entity
definition and exactly one directed edge per relationship, labelled with the
display form of `to_count` and running from the `from` name to the `to`
name; each definition's table block consists of its field rows in source
order followed by its outgoing-relationship rows in source order, so its row
count is the field count plus the outgoing-relationship count. -/
theorem c5_orm_counts (doc : Doc) (hclosed : closedFroms doc = true) :
    countTag Tag.tableOpen (emit_orm doc).1 = doc.defs.length ∧
    countTag Tag.ormEdge (emit_orm doc).1 = doc.links.length ∧
    (emit_orm doc).1 =
      ormHeader ++ doc.defs.flatMap (ormDefBlock doc) ++
        doc.links.map ormEdgeItem ++ [(Tag.fixed, "\x7d")] ∧
    (∀ d ∈ doc.defs,
      countTag Tag.rowStart (ormDefBlock doc d) =
        d.fields.length + (ormOutgoing doc d).length ∧
      ormDefBlock doc d =
        tableOpenItem d.name ::
          (d.fields.flatMap (fun fl => table_fields (ormFieldCells fl)) ++
            (ormOutgoing doc d).flatMap (fun l => table_fields (fkCells l)) ++
            [(Tag.tableClose, "</TABLE> >];")])) ∧
    (∀ l : Link, ormEdgeItem l =
      (Tag.ormEdge, "\t" ++ l.from_ ++ " -> " ++ l.to_ ++ " [headlabel=<" ++
        LinkN.display l.to_count ++ ">\n            labelangle=45 labeldistance=2.1];")) :=
  ⟨emit_orm_count_tableOpen doc hclosed, emit_orm_count_ormEdge doc hclosed,
   emit_orm_fst_closed doc hclosed,
   fun d _ => ⟨countTag_ormDefBlock_rowStart doc d, rfl⟩,
   fun _ => rfl⟩

/-- C5 witness: the ORM counts on the spec §8 example document. -/
theorem c5_witness :
    countTag Tag.tableOpen (emit_orm sampleDoc).1 = sampleDoc.defs.length ∧
    countTag Tag.ormEdge (emit_orm sampleDoc).1 = sampleDoc.links.length ∧
    (emit_orm sampleDoc).1 =
      ormHeader ++ sampleDoc.defs.flatMap (ormDefBlock sampleDoc) ++
        sampleDoc.links.map ormEdgeItem ++ [(Tag.fixed, "\x7d")] ∧
    (∀ d ∈ sampleDoc.defs,
      countTag Tag.rowStart (ormDefBlock sampleDoc d) =
        d.fields.length + (ormOutgoing sampleDoc d).length ∧
      ormDefBlock sampleDoc d =
        tableOpenItem d.name ::
          (d.fields.flatMap (fun fl => table_fields (ormFieldCells fl)) ++
            (ormOutgoing sampleDoc d).flatMap (fun l => table_fields (fkCells l)) ++
            [(Tag.tableClose, "</TABLE> >];")])) ∧
    (∀ l : Link, ormEdgeItem l =
      (Tag.ormEdge, "\t" ++ l.from_ ++ " -> " ++ l.to_ ++ " [headlabel=<" ++
        LinkN.display l.to_count ++ ">\n            labelangle=45 labeldistance=2.1];")) :=
  c5_orm_counts sampleDoc (by decide)

/-- C6: in the ORM view every declared field renders as one row whose left
cell is `"pk"` exactly when the field's name is `"id"` — independently of
the declared type — and otherwise empty, and whose right cell is the field
name prefixed with `+`; these rows are the field part of the definition's
table block in the emitted output. -/
theorem c6_pk_marker (doc : Doc) (d : Def) (fl : Field)
    (hclosed : closedFroms doc = true) (_hd : d ∈ doc.defs) (_hf : fl ∈ d.fields) :
    ormFieldCells fl = [if fl.name == "id" then "pk" else "", "+" ++ fl.name] ∧
    ((ormFieldCells fl)[0]? = some "pk" ↔ fl.name = "id") ∧
    (∀ t : String, ormFieldCells { field_type := t, name := fl.name } = ormFieldCells fl) ∧
    (emit_orm doc).1 =
      ormHeader ++ doc.defs.flatMap (ormDefBlock doc) ++
        doc.links.map ormEdgeItem ++ [(Tag.fixed, "\x7d")] ∧
    ormDefBlock doc d =
      tableOpenItem d.name ::
        (d.fields.flatMap (fun f2 => table_fields (ormFieldCells f2)) ++
          (ormOutgoing doc d).flatMap (fun l => table_fields (fkCells l)) ++
          [(Tag.tableClose, "</TABLE> >];")]) := by
  refine ⟨rfl, ?_, fun t => rfl, emit_orm_fst_closed doc hclosed, rfl⟩
  by_cases h : fl.name = "id" <;>
    simp [ormFieldCells, h, show ("" : String) ≠ "pk" from by decide]

/-- C6 witness: the claim evaluated on the `id` field of the `User` entity
in the spec §8 example document. -/
theorem c6_witness :
    ormFieldCells idField = [if idField.name == "id" then "pk" else "", "+" ++ idField.name] ∧
    ((ormFieldCells idField)[0]? = some "pk" ↔ idField.name = "id") ∧
    (∀ t : String, ormFieldCells { field_type := t, name := idField.name } = ormFieldCells idField) ∧
    (emit_orm sampleDoc).1 =
      ormHeader ++ sampleDoc.defs.flatMap (ormDefBlock sampleDoc) ++
        sampleDoc.links.map ormEdgeItem ++ [(Tag.fixed, "\x7d")] ∧
    ormDefBlock sampleDoc userDef =
      tableOpenItem userDef.name ::
        (userDef.fields.flatMap (fun f2 => table_fields (ormFieldCells f2)) ++
          (ormOutgoing sampleDoc userDef).flatMap (fun l => table_fields (fkCells l)) ++
          [(Tag.tableClose, "</TABLE> >];")]) :=
  c6_pk_marker sampleDoc userDef idField (by decide) (by decide) (by decide)

/-- C7: a relationship statement missing its destination name fails with a
`"Missing"` error at `next_item`; the error aborts the whole document
construction no matter what follows the malformed statement, the pipeline
renders nothing for that input, and the `"Missing"` message differs from
every structural-mismatch (`"Expected …, got …"`) message. -/
theorem c7_missing_subnode (ls fs cs bs cs2 : String) (rest : List Token)
    (n1 n2 : LinkN) (b : LinkBody) (m : Mode)
    (h1 : LinkN.parse (Token.mk Rule.link_n cs []) = PResult.ok n1)
    (h2 : LinkBody.parse (Token.mk Rule.ARROW_BODY bs []) = PResult.ok b)
    (h3 : LinkN.parse (Token.mk Rule.link_n cs2 []) = PResult.ok n2) :
    Link.parse (missingToLinkToken ls fs cs bs cs2) = PResult.err "Missing" ∧
    buildDoc (missingToLinkToken ls fs cs bs cs2 :: rest) = PResult.err "Missing" ∧
    runPipeline m (missingToLinkToken ls fs cs bs cs2 :: rest) = PResult.err "Missing" ∧
    (∀ r1 r2 : Rule, mismatchMsg r1 r2 ≠ "Missing") := by
  have hlink : Link.parse (missingToLinkToken ls fs cs bs cs2) = PResult.err "Missing" := by
    simp only [Link.parse, missingToLinkToken, Token.rule, Token.str, Token.inner,
      next_item, parseName, h1, h2, h3, ite_true, ite_false]
  have hbuild : buildDoc (missingToLinkToken ls fs cs bs cs2 :: rest) =
      PResult.err "Missing" := by
    have hlink2 := hlink
    simp only [missingToLinkToken] at hlink2
    simp only [buildDoc, missingToLinkToken, Token.rule, hlink2]
  refine ⟨hlink, hbuild, by simp only [runPipeline, hbuild], ?_⟩
  intro r1 r2
  cases r1 <;> cases r2 <;> decide

/-- C7 witness: the malformed statement `User 1 -> n` (no destination), in
an otherwise empty document, under the DER emitter. -/
theorem c7_witness :
    Link.parse (missingToLinkToken "User 1 -> n" "User" "1" "->" "n") = PResult.err "Missing" ∧
    buildDoc (missingToLinkToken "User 1 -> n" "User" "1" "->" "n" :: []) = PResult.err "Missing" ∧
    runPipeline Mode.DER (missingToLinkToken "User 1 -> n" "User" "1" "->" "n" :: []) =
      PResult.err "Missing" ∧
    (∀ r1 r2 : Rule, mismatchMsg r1 r2 ≠ "Missing") :=
  c7_missing_subnode "User 1 -> n" "User" "1" "->" "n" [] LinkN.One LinkN.Many
    { is_pk := false } Mode.DER (by decide) (by decide) (by decide)

/-- C8: a relationship statement with all five required parts parses
successfully with `label := none` both when the trailing label pair is
absent and when a trailing pair is present but fails to parse as a label
(its rule tag is not `name`); no error is propagated in either case. -/
theorem c8_label_optional (ls fs cs bs cs2 ts : String)
    (n1 n2 : LinkN) (b : LinkBody) (bad : Token)
    (h1 : LinkN.parse (Token.mk Rule.link_n cs []) = PResult.ok n1)
    (h2 : LinkBody.parse (Token.mk Rule.ARROW_BODY bs []) = PResult.ok b)
    (h3 : LinkN.parse (Token.mk Rule.link_n cs2 []) = PResult.ok n2)
    (hbad : bad.rule ≠ Rule.name) :
    Link.parse (fullLinkToken ls fs cs bs cs2 ts []) =
      PResult.ok { from_ := fs, from_count := n1, body := b, to_count := n2,
                   to_ := ts, label := none } ∧
    Link.parse (fullLinkToken ls fs cs bs cs2 ts [bad]) =
      PResult.ok { from_ := fs, from_count := n1, body := b, to_count := n2,
                   to_ := ts, label := none } := by
  constructor
  · simp only [Link.parse, fullLinkToken, Token.rule, Token.str, Token.inner,
      next_item, parseName, h1, h2, h3, ite_true, ite_false,
      List.cons_append, List.nil_append]
  · cases bad with
    | mk br bstr binner =>
      simp only [Token.rule] at hbad
      simp only [Link.parse, fullLinkToken, Token.rule, Token.str, Token.inner,
        next_item, parseName, h1, h2, h3, ite_true, ite_false,
        List.cons_append, List.nil_append]
      rw [if_neg hbad]

/-- C8 witness: the statement `User 1 -> n Order` without a label, and the
same statement followed by a stray cardinality pair in label position. -/
theorem c8_witness :
    Link.parse (fullLinkToken "x" "User" "1" "->" "n" "Order" []) =
      PResult.ok { from_ := "User", from_count := LinkN.One, body := { is_pk := false },
                   to_count := LinkN.Many, to_ := "Order", label := none } ∧
    Link.parse (fullLinkToken "x" "User" "1" "->" "n" "Order" [Token.mk Rule.link_n "1" []]) =
      PResult.ok { from_ := "User", from_count := LinkN.One, body := { is_pk := false },
                   to_count := LinkN.Many, to_ := "Order", label := none } :=
  c8_label_optional "x" "User" "1" "->" "n" "Order" LinkN.One LinkN.Many
    { is_pk := false } (Token.mk Rule.link_n "1" [])
    (by decide) (by decide) (by decide) (by decide)

/-- C9: both emitters are pure functions of the document in this embedding,
so rendering the same document twice (with either emitter) yields
byte-identical output. -/
theorem c9_deterministic (d1 d2 : Doc) (h : d1 = d2) :
    render (emit_der d1).1 = render (emit_der d2).1 ∧
    render (emit_orm d1).1 = render (emit_orm d2).1 := by
  subst h
  exact ⟨rfl, rfl⟩

/-- C9 witness: two renders of the spec §8 example document. -/
theorem c9_witness :
    render (emit_der sampleDoc).1 = render (emit_der sampleDoc).1 ∧
    render (emit_orm sampleDoc).1 = render (emit_orm sampleDoc).1 :=
  c9_deterministic sampleDoc sampleDoc rfl

/-- C10: `emit_orm` treats undefined `from` and `to` names asymmetrically:
whenever every relationship's `from` name matches a definition the emitter
runs to completion — even with dangling `to` names, which still get their
edge chunks and table blocks — but on a concrete document whose
relationship's `from` name (`"Ghost"`) matches no definition, the
grouping-index lookup panics instead of returning an error. -/
theorem c10_from_to_asymmetry :
    (∀ doc : Doc, closedFroms doc = true →
      (emit_orm doc).2 = none ∧
      countTag Tag.ormEdge (emit_orm doc).1 = doc.links.length ∧
      (emit_orm doc).1 =
        ormHeader ++ doc.defs.flatMap (ormDefBlock doc) ++
          doc.links.map ormEdgeItem ++ [(Tag.fixed, "\x7d")]) ∧
    closedFroms c10BadDoc = false ∧
    (emit_orm c10BadDoc).2 = some "called Option::unwrap() on a None value" :=
  ⟨fun doc h => ⟨(emit_orm_snd_none_iff doc).mpr h, emit_orm_count_ormEdge doc h,
    emit_orm_fst_closed doc h⟩,
   by decide, rfl⟩

/-- C10 witness: the universal half of the claim evaluated on a document
whose relationship's `to` name is dangling but whose `from` name resolves. -/
theorem c10_witness :
    (emit_orm danglingToDoc).2 = none ∧
    countTag Tag.ormEdge (emit_orm danglingToDoc).1 = danglingToDoc.links.length ∧
    (emit_orm danglingToDoc).1 =
      ormHeader ++ danglingToDoc.defs.flatMap (ormDefBlock danglingToDoc) ++
        danglingToDoc.links.map ormEdgeItem ++ [(Tag.fixed, "\x7d")] :=
  c10_from_to_asymmetry.1 danglingToDoc (by decide)

end Dialang
